import Mathlib

/-!
Verification of `apps/web/ui/partners/program-application-sheet.tsx`.

The component is embedded as an event-trace semantics: a submit attempt,
given the component inputs, the form data and the outcome of the outbound
action call, produces the list of side-effect events the handlers emit.
TypeScript `undefined`/`null` values become `Option`, and JavaScript
truthiness tests on strings (`x && ...`, `x || y`) are made explicit.
The `Option` on the produced trace records whether a runtime `TypeError`
is possible: `none` marks the dereference `program!.slug` on an absent
`program` inside the action success callback.
-/

/-- Truthiness of an optional string, as JavaScript evaluates it: absent
(`undefined`/`null`) and the empty string are falsy. -/
def jsTruthy (o : Option String) : Bool :=
  match o with
  | none => false
  | some s => !(s = "")

/-- JavaScript `a || b` specialised to an optional string on the left:
yields `b` whenever `a` is absent or empty. -/
def jsOr (o : Option String) (b : String) : String :=
  match o with
  | none => b
  | some s => if s = "" then b else s

/-- The `ProgramProps` fields this component reads: `{id, slug, name, domain,
logo?, termsUrl?}`. -/
structure Program where
  id : String
  slug : String
  name : String
  domain : String
  logo : Option String
  termsUrl : Option String
deriving DecidableEq, Repr

/-- The partner-profile fields this component reads: `{email, name, website?}`.
`usePartnerProfile` may not have resolved yet, so the component holds an
`Option Partner`. -/
structure Partner where
  email : String
  name : String
  website : Option String
deriving DecidableEq, Repr

/-- The `FormData` type of the component: `proposal`, `comments` and the
locally added `termsAgreement` checkbox value. -/
structure FormData where
  proposal : String
  comments : String
  termsAgreement : Bool
deriving DecidableEq, Repr

/-- The payload handed to `executeAsync`: the spread of the form data merged
with the partner identity fields and the program id. -/
structure Payload where
  proposal : String
  comments : String
  termsAgreement : Bool
  email : String
  name : String
  website : Option String
  programId : String
deriving DecidableEq, Repr

/-- Construction of the `executeAsync` payload from the source:
`{...data, email: partner.email, name: partner.name,
website: partner.website ?? undefined, programId: program.id}`. -/
def mkPayload (program : Program) (partner : Partner) (data : FormData) : Payload :=
  { proposal := data.proposal
    comments := data.comments
    termsAgreement := data.termsAgreement
    email := partner.email
    name := partner.name
    website := partner.website
    programId := program.id }

/-- Outcome of the outbound `createProgramApplicationAction` call: success is
opaque, failure carries the optional `error.serverError` message. -/
inductive ActionResult
  | success : ActionResult
  | failure (serverError : Option String) : ActionResult
deriving DecidableEq, Repr

/-- One observable side effect emitted by the submit flow. -/
inductive Event
  | setOpen (b : Bool)
  | mutateKey (key : String)
  | toastSuccess (msg : String)
  | toastError (msg : String)
  | setRootServerError (msg : String)
  | callOnSuccess
  | execute (p : Payload)
deriving DecidableEq, Repr

/-- The SWR key invalidated after a successful submission:
the template literal built from the program slug. -/
def programsCacheKey (slug : String) : String :=
  "/api/partner-profile/programs/" ++ slug

/-- The fixed fallback error message of the component. -/
def fallbackErrorMessage : String := "Failed to submit application"

/-- The `useAction` callbacks, as a trace of events. On success the code runs
`setIsOpen(false)`, `mutate(...program!.slug)`, `toast.success(...)` and
`onSuccess?.()`; `none` records the `TypeError` the non-null assertion
`program!` would hide if `program` were absent there. On error the code sets
the root form error and shows an error toast, both carrying
`error.serverError || "Failed to submit application"`. -/
def useActionCallbacks (program : Option Program) (onSuccessProvided : Bool)
    (result : ActionResult) : Option (List Event) :=
  match result with
  | ActionResult.success =>
      match program with
      | none => none
      | some prog =>
          some ([Event.setOpen false,
                 Event.mutateKey (programsCacheKey prog.slug),
                 Event.toastSuccess "Application submitted!"] ++
                (if onSuccessProvided then [Event.callOnSuccess] else []))
  | ActionResult.failure serverError =>
      let msg := jsOr serverError fallbackErrorMessage
      some [Event.setRootServerError msg, Event.toastError msg]

/-- The `onSubmit` handler: `if (!program || !partner?.email) return;` then
`await executeAsync({...data, ...})`, whose resolution fires the `useAction`
callbacks. An early return emits no event. -/
def onSubmit (program : Option Program) (partner : Option Partner)
    (onSuccessProvided : Bool) (data : FormData) (result : ActionResult) :
    Option (List Event) :=
  match program, partner with
  | some prog, some p =>
      if p.email = "" then some []
      else
        (useActionCallbacks (some prog) onSuccessProvided result).map
          (fun evs => Event.execute (mkPayload prog p data) :: evs)
  | _, _ => some []

/-- Field-level validation errors as `react-hook-form` computes them at
submit time from the registered validators. -/
structure FieldErrors where
  proposal : Bool
  comments : Bool
  termsAgreement : Bool
deriving DecidableEq, Repr

/-- Validation registered by the component: `proposal` with
`{required: true}`; `comments` with no validators; `termsAgreement` with
`{required: true, validate: v => v === true}`, registered only when the
checkbox is rendered, i.e. only when `program.termsUrl` is truthy. -/
def validateForm (program : Program) (data : FormData) : FieldErrors :=
  { proposal := data.proposal = ""
    comments := false
    termsAgreement := jsTruthy program.termsUrl && !data.termsAgreement }

/-- Whether any registered validator failed, blocking `onSubmit`. -/
def hasErrors (e : FieldErrors) : Bool :=
  e.proposal || e.comments || e.termsAgreement

/-- A full submit attempt on the rendered component. When `program` is absent
the content component rendered `null`, so no form exists and no event can be
emitted; otherwise `handleSubmit` runs the registered validators and calls
`onSubmit` only when they all pass. -/
def submitAttempt (program : Option Program) (partner : Option Partner)
    (onSuccessProvided : Bool) (data : FormData) (result : ActionResult) :
    Option (List Event) :=
  match program with
  | none => some []
  | some prog =>
      if hasErrors (validateForm prog data) then some []
      else onSubmit (some prog) partner onSuccessProvided data result

/-- The pieces of component-visible state the emitted events act on. -/
structure SheetState where
  isOpen : Bool
  invalidated : List String
  successToasts : List String
  errorToasts : List String
  rootServerError : Option String
  onSuccessRuns : Nat
  executed : List Payload
deriving DecidableEq, Repr

/-- Effect of a single event on the component-visible state. -/
def applyEvent (st : SheetState) : Event → SheetState
  | Event.setOpen b => { st with isOpen := b }
  | Event.mutateKey k => { st with invalidated := st.invalidated ++ [k] }
  | Event.toastSuccess m => { st with successToasts := st.successToasts ++ [m] }
  | Event.toastError m => { st with errorToasts := st.errorToasts ++ [m] }
  | Event.setRootServerError m => { st with rootServerError := some m }
  | Event.callOnSuccess => { st with onSuccessRuns := st.onSuccessRuns + 1 }
  | Event.execute p => { st with executed := st.executed ++ [p] }

/-- Effect of a trace of events, applied in order. -/
def applyEvents (st : SheetState) (evs : List Event) : SheetState :=
  evs.foldl applyEvent st

/-- Whether an event is an outbound action call. -/
def isExecute : Event → Bool
  | Event.execute _ => true
  | _ => false

/-- Modelled from the spec: the form library's submit lifecycle, the state
machine of section 4.1 (`idle → submitting → {success | error → idle on
retry}`). The library itself is an external collaborator and is not under
`src/`; only the flags `isSubmitting` and `isSubmitSuccessful` that the
component reads are modelled. -/
inductive Phase
  | idle
  | submitting
  | success
  | error
deriving DecidableEq, Repr

/-- Modelled from the spec: the in-flight flag read from the form state. -/
def isSubmitting : Phase → Bool
  | Phase.submitting => true
  | _ => false

/-- Modelled from the spec: the flag set after a submit handler resolves. -/
def isSubmitSuccessful : Phase → Bool
  | Phase.success => true
  | _ => false

/-- The submit button's `loading` prop from the source:
`loading={isSubmitting || isSubmitSuccessful}`. -/
def buttonLoading (ph : Phase) : Bool :=
  isSubmitting ph || isSubmitSuccessful ph

/-- What the content component renders for a present program: the two text
fields always, the terms checkbox only under `{program.termsUrl && ...}`,
and the submit button with its `loading` prop. -/
structure RenderedForm where
  showsProposalField : Bool
  showsCommentsField : Bool
  showsTermsCheckbox : Bool
  submitButtonLoading : Bool
deriving DecidableEq, Repr

/-- The render of `ProgramApplicationSheetContent`: `if (!program) return
null;` and otherwise the form described by `RenderedForm`. -/
def renderContent (program : Option Program) (ph : Phase) : Option RenderedForm :=
  match program with
  | none => none
  | some prog =>
      some { showsProposalField := true
             showsCommentsField := true
             showsTermsCheckbox := jsTruthy prog.termsUrl
             submitButtonLoading := buttonLoading ph }

/-- Modelled from the spec: execution state for the submit-concurrency
argument of section 5. `inFlight` counts outstanding outbound calls; the
phase drives the button's `loading` prop. The `Button` component's
behaviour of ignoring clicks while `loading` is repository code not under
`src/`. -/
structure UIExec where
  phase : Phase
  inFlight : Nat
deriving DecidableEq, Repr

/-- Modelled from the spec: the event-driven transitions of one component
instance. A click starts a submit only when the button is not in its
loading state; a resolution of the outbound call moves the lifecycle to
success or error. -/
inductive SubmitStep : UIExec → UIExec → Prop
  | click (s : UIExec) :
      buttonLoading s.phase = false →
      SubmitStep s { phase := Phase.submitting, inFlight := s.inFlight + 1 }
  | resolveOk (s : UIExec) :
      s.phase = Phase.submitting →
      SubmitStep s { phase := Phase.success, inFlight := s.inFlight - 1 }
  | resolveErr (s : UIExec) :
      s.phase = Phase.submitting →
      SubmitStep s { phase := Phase.error, inFlight := s.inFlight - 1 }

/-- The component mounts idle with no call in flight. -/
def initialUI : UIExec :=
  { phase := Phase.idle, inFlight := 0 }

/-- States reachable from mount by the event-driven transitions. -/
def UIReachable (s : UIExec) : Prop :=
  Relation.ReflTransGen SubmitStep initialUI s

/-- Invariant tying the in-flight count to the lifecycle phase. -/
def uiInv (s : UIExec) : Prop :=
  s.inFlight = (if s.phase = Phase.submitting then 1 else 0)

/-- The element `ProgramApplicationSheet` renders: a `Sheet` with
`open={isOpen}`, `onOpenChange={setIsOpen}` and the `nested` flag, around
the content component. The setter is kept abstract in `σ` so that wiring
identity is expressible. -/
structure SheetElement (σ : Type) where
  sheetOpen : Bool
  sheetOnOpenChange : σ
  sheetNested : Option Bool

/-- The wrapper `ProgramApplicationSheet` forwards `isOpen`, `setIsOpen` and
`nested` to the `Sheet` container. -/
def mkProgramApplicationSheetElement (σ : Type) (isOpen : Bool) (setIsOpen : σ)
    (nested : Option Bool) : SheetElement σ :=
  { sheetOpen := isOpen, sheetOnOpenChange := setIsOpen, sheetNested := nested }

/-- What `useProgramApplicationSheet` returns: the pre-wired panel element
and the setter. -/
structure HookReturn (σ : Type) where
  programApplicationSheet : SheetElement σ
  setIsOpen : σ

/-- The initial value of the hook's `useState(false)` open flag. -/
def useProgramApplicationSheetInitialOpen : Bool := false

/-- The body of `useProgramApplicationSheet` at a given state of its
`useState` cell: it renders `ProgramApplicationSheet` with exactly that flag
and setter (no `nested` flag is passed) and returns the same setter. -/
def useProgramApplicationSheetRender (σ : Type) (state : Bool) (setter : σ) :
    HookReturn σ :=
  { programApplicationSheet :=
      mkProgramApplicationSheetElement σ state setter none
    setIsOpen := setter }

/-- Concrete program fixture: the scenario of the spec's section 8, with an
arbitrary id for the opaque `programId`. -/
def acmeProgram : Program :=
  { id := "prog_1", slug := "acme", name := "Acme", domain := "acme.com"
    logo := none, termsUrl := some "https://x/terms" }

/-- Concrete partner fixture from the same scenario. -/
def acmePartner : Partner :=
  { email := "a@b.com", name := "A", website := none }

/-- Concrete form-data fixture from the same scenario. -/
def acmeFormData : FormData :=
  { proposal := "I will blog", comments := "", termsAgreement := true }

/-- A program whose `termsUrl` property is present but holds the empty
string: present in the TypeScript sense, falsy in the JavaScript sense. -/
def emptyTermsProgram : Program :=
  { id := "prog_2", slug := "beta", name := "Beta", domain := "beta.co"
    logo := none, termsUrl := some "" }

/-- Form data that leaves the terms checkbox unchecked. -/
def noTermsFormData : FormData :=
  { proposal := "social posts", comments := "", termsAgreement := false }

/-- A neutral initial sheet state with the panel open. -/
def openSheetState : SheetState :=
  { isOpen := true, invalidated := [], successToasts := [], errorToasts := []
    rootServerError := none, onSuccessRuns := 0, executed := [] }

/-- Form data whose required proposal field is empty. -/
def emptyProposalFormData : FormData :=
  { proposal := "", comments := "a question", termsAgreement := true }

/-- C8: when the program input is absent, the content component renders
nothing (`null`): no form, no fields, no submit button. -/
theorem renders_nothing_without_program (ph : Phase) :
    renderContent none ph = none := rfl

/-- C10: the hook initialises its open flag to `false`, and the returned
panel element is wired to exactly the hook's flag and setter — the setter it
returns is the very setter the panel's `open` state is driven by. -/
theorem hook_open_flag_wiring :
    useProgramApplicationSheetInitialOpen = false ∧
    ∀ (σ : Type) (state : Bool) (setter : σ),
      (useProgramApplicationSheetRender σ state setter).programApplicationSheet.sheetOpen
          = state ∧
      (useProgramApplicationSheetRender σ state setter).programApplicationSheet.sheetOnOpenChange
          = setter ∧
      (useProgramApplicationSheetRender σ state setter).setIsOpen = setter :=
  ⟨rfl, fun _ _ _ => ⟨rfl, rfl, rfl⟩⟩

/-- C9: the non-null assertion `program!.slug` in the action success callback
can never fail on a reachable trace: every submit attempt yields a defined
trace (`isSome`), even though the callback itself would crash (`none`) if it
could ever run with an absent program. -/
theorem program_assertion_safe (program : Option Program) (partner : Option Partner)
    (b : Bool) (data : FormData) (result : ActionResult) :
    (submitAttempt program partner b data result).isSome = true ∧
    useActionCallbacks none b ActionResult.success = none := by
  refine ⟨?_, rfl⟩
  cases program with
  | none => rfl
  | some prog =>
    cases hE : hasErrors (validateForm prog data) with
    | true => simp [submitAttempt, hE]
    | false =>
      cases partner with
      | none => simp [submitAttempt, hE, onSubmit]
      | some p =>
        by_cases hEm : p.email = "" <;>
          cases result <;>
            simp [submitAttempt, hE, onSubmit, hEm, useActionCallbacks]

/-- C4: the `onSubmit` handler is a no-op whenever the program is absent or
the partner's email is absent: no outbound call, no event, and applying the
empty trace leaves every piece of state unchanged. -/
theorem onSubmit_guard_noop (program : Option Program) (partner : Option Partner)
    (b : Bool) (data : FormData) (result : ActionResult) (st : SheetState)
    (h : program = none ∨ partner = none ∨ ∃ p, partner = some p ∧ p.email = "") :
    onSubmit program partner b data result = some [] ∧
    applyEvents st [] = st := by
  refine ⟨?_, rfl⟩
  rcases h with h | h | ⟨p, hp, he⟩
  · subst h; cases partner <;> rfl
  · subst h; cases program <;> rfl
  · subst hp
    cases program with
    | none => rfl
    | some prog => simp [onSubmit, he]

/-- Closed instance of `onSubmit_guard_noop` at an absent program. -/
theorem onSubmit_guard_noop_witness :
    onSubmit none (some acmePartner) false acmeFormData ActionResult.success = some [] ∧
    applyEvents openSheetState [] = openSheetState :=
  onSubmit_guard_noop none (some acmePartner) false acmeFormData
    ActionResult.success openSheetState (Or.inl rfl)

/-- C5: an empty proposal fails its `required` validator, so the attempt is
blocked with an empty trace (no outbound call), while the comments field has
no validator and never errors. -/
theorem empty_proposal_blocks (prog : Program) (partner : Option Partner)
    (b : Bool) (data other : FormData) (result : ActionResult)
    (h : data.proposal = "") :
    (validateForm prog data).proposal = true ∧
    submitAttempt (some prog) partner b data result = some [] ∧
    (validateForm prog other).comments = false := by
  refine ⟨by simp [validateForm, h], ?_, rfl⟩
  simp [submitAttempt, hasErrors, validateForm, h]

/-- Helper: the exact trace of a submit attempt that passes validation and
the presence guard and whose outbound call succeeds. -/
theorem submitAttempt_success_eq (prog : Program) (p : Partner) (b : Bool)
    (data : FormData) (hemail : p.email ≠ "")
    (hval : hasErrors (validateForm prog data) = false) :
    submitAttempt (some prog) (some p) b data ActionResult.success =
      some (Event.execute (mkPayload prog p data) ::
        ([Event.setOpen false,
          Event.mutateKey (programsCacheKey prog.slug),
          Event.toastSuccess "Application submitted!"] ++
         (if b then [Event.callOnSuccess] else []))) := by
  simp [submitAttempt, hval, onSubmit, hemail, useActionCallbacks]

/-- Helper: the exact trace of a submit attempt that passes validation and
the presence guard and whose outbound call fails. -/
theorem submitAttempt_failure_eq (prog : Program) (p : Partner) (b : Bool)
    (data : FormData) (serverError : Option String) (hemail : p.email ≠ "")
    (hval : hasErrors (validateForm prog data) = false) :
    submitAttempt (some prog) (some p) b data (ActionResult.failure serverError) =
      some [Event.execute (mkPayload prog p data),
            Event.setRootServerError (jsOr serverError fallbackErrorMessage),
            Event.toastError (jsOr serverError fallbackErrorMessage)] := by
  simp [submitAttempt, hval, onSubmit, hemail, useActionCallbacks]

/-- Closed instance of `empty_proposal_blocks` at a concrete empty proposal. -/
theorem empty_proposal_blocks_witness :
    (validateForm acmeProgram emptyProposalFormData).proposal = true ∧
    submitAttempt (some acmeProgram) (some acmePartner) true emptyProposalFormData
      ActionResult.success = some [] ∧
    (validateForm acmeProgram acmeFormData).comments = false :=
  empty_proposal_blocks acmeProgram (some acmePartner) true emptyProposalFormData
    acmeFormData ActionResult.success rfl

/-- C1: when the outbound call succeeds, all four success side effects
occur: the open flag is set to `false` exactly once, the SWR key built from
the program's slug is invalidated, the success toast fires exactly once, and
the optional `onSuccess` callback runs exactly when it was provided. -/
theorem submit_success_side_effects (prog : Program) (p : Partner) (b : Bool)
    (data : FormData) (st : SheetState) (hemail : p.email ≠ "")
    (hval : hasErrors (validateForm prog data) = false) :
    ∃ evs,
      submitAttempt (some prog) (some p) b data ActionResult.success = some evs ∧
      evs.count (Event.setOpen false) = 1 ∧
      evs.count (Event.mutateKey (programsCacheKey prog.slug)) = 1 ∧
      evs.count (Event.toastSuccess "Application submitted!") = 1 ∧
      evs.count Event.callOnSuccess = (if b then 1 else 0) ∧
      (applyEvents st evs).isOpen = false := by
  refine ⟨_, submitAttempt_success_eq prog p b data hemail hval, ?_, ?_, ?_, ?_, ?_⟩ <;>
    cases b <;>
      simp [List.count_cons, List.count_append, applyEvents, applyEvent]

/-- Closed instance of `submit_success_side_effects` at the spec's scenario
fixtures with an `onSuccess` callback provided. -/
theorem submit_success_side_effects_witness :
    acmePartner.email ≠ "" ∧
    hasErrors (validateForm acmeProgram acmeFormData) = false ∧
    ∃ evs,
      submitAttempt (some acmeProgram) (some acmePartner) true acmeFormData
        ActionResult.success = some evs ∧
      evs.count (Event.setOpen false) = 1 ∧
      evs.count (Event.mutateKey (programsCacheKey acmeProgram.slug)) = 1 ∧
      evs.count (Event.toastSuccess "Application submitted!") = 1 ∧
      evs.count Event.callOnSuccess = (if true then 1 else 0) ∧
      (applyEvents openSheetState evs).isOpen = false :=
  ⟨by decide, by decide,
   submit_success_side_effects acmeProgram acmePartner true acmeFormData
     openSheetState (by decide) (by decide)⟩

/-- C2 (amended): when the outbound call fails, no `setIsOpen` call happens
so the open flag is unchanged (it stays `true` if it was `true`), the root
form error and the error toast both carry `serverError` when it is present
and non-empty and the fixed fallback string otherwise, and exactly one
outbound call was made (no automatic retry). -/
theorem submit_failure_side_effects (prog : Program) (p : Partner) (b : Bool)
    (data : FormData) (st : SheetState) (serverError : Option String)
    (hemail : p.email ≠ "")
    (hval : hasErrors (validateForm prog data) = false) :
    ∃ evs,
      submitAttempt (some prog) (some p) b data
        (ActionResult.failure serverError) = some evs ∧
      evs.count (Event.setOpen false) = 0 ∧
      evs.count (Event.setOpen true) = 0 ∧
      (applyEvents st evs).isOpen = st.isOpen ∧
      (applyEvents st evs).rootServerError
          = some (jsOr serverError fallbackErrorMessage) ∧
      evs.count (Event.toastError (jsOr serverError fallbackErrorMessage)) = 1 ∧
      evs.countP isExecute = 1 := by
  refine ⟨_, submitAttempt_failure_eq prog p b data serverError hemail hval,
    ?_, ?_, ?_, ?_, ?_, ?_⟩ <;>
    simp [List.count_cons, List.countP_cons, applyEvents, applyEvent, isExecute]

/-- Closed instance of `submit_failure_side_effects` with a server-supplied
message, starting from an open panel. -/
theorem submit_failure_side_effects_witness :
    acmePartner.email ≠ "" ∧
    hasErrors (validateForm acmeProgram acmeFormData) = false ∧
    ∃ evs,
      submitAttempt (some acmeProgram) (some acmePartner) false acmeFormData
        (ActionResult.failure (some "Already applied")) = some evs ∧
      evs.count (Event.setOpen false) = 0 ∧
      evs.count (Event.setOpen true) = 0 ∧
      (applyEvents openSheetState evs).isOpen = openSheetState.isOpen ∧
      (applyEvents openSheetState evs).rootServerError
          = some (jsOr (some "Already applied") fallbackErrorMessage) ∧
      evs.count (Event.toastError (jsOr (some "Already applied")
        fallbackErrorMessage)) = 1 ∧
      evs.countP isExecute = 1 :=
  ⟨by decide, by decide,
   submit_failure_side_effects acmeProgram acmePartner false acmeFormData
     openSheetState (some "Already applied") (by decide) (by decide)⟩

/-- C2 counterexample: the server-supplied message can be present yet empty,
and then the code shows the fallback string, not the supplied message. The
attempt below carries `serverError = some ""`; the toast and root error hold
`"Failed to submit application"` and no toast carries `""`. -/
theorem server_message_counterexample :
    (submitAttempt (some acmeProgram) (some acmePartner) false acmeFormData
        (ActionResult.failure (some ""))).getD [] =
      [Event.execute (mkPayload acmeProgram acmePartner acmeFormData),
       Event.setRootServerError fallbackErrorMessage,
       Event.toastError fallbackErrorMessage] ∧
    ((submitAttempt (some acmeProgram) (some acmePartner) false acmeFormData
        (ActionResult.failure (some ""))).getD []).count (Event.toastError "") = 0 ∧
    fallbackErrorMessage ≠ "" := by
  exact ⟨rfl, by decide, by decide⟩

/-- C6: whenever validation and the presence guard pass, exactly one
outbound call is made, and its payload is the merge of the form data with
the partner identity fields and the program id. -/
theorem submit_payload_merge (prog : Program) (p : Partner) (b : Bool)
    (data : FormData) (result : ActionResult) (hemail : p.email ≠ "")
    (hval : hasErrors (validateForm prog data) = false) :
    ∃ evs,
      submitAttempt (some prog) (some p) b data result = some evs ∧
      evs.filter isExecute =
        [Event.execute
          { proposal := data.proposal, comments := data.comments,
            termsAgreement := data.termsAgreement, email := p.email,
            name := p.name, website := p.website, programId := prog.id }] := by
  cases result with
  | success =>
      refine ⟨_, submitAttempt_success_eq prog p b data hemail hval, ?_⟩
      cases b <;> simp [List.filter, isExecute, mkPayload]
  | failure serverError =>
      refine ⟨_, submitAttempt_failure_eq prog p b data serverError hemail hval, ?_⟩
      simp [List.filter, isExecute, mkPayload]

/-- Closed instance of `submit_payload_merge` at the spec's scenario:
the call carries proposal "I will blog", email "a@b.com", name "A", the
program id and `termsAgreement = true`. -/
theorem submit_payload_merge_witness :
    acmePartner.email ≠ "" ∧
    hasErrors (validateForm acmeProgram acmeFormData) = false ∧
    ∃ evs,
      submitAttempt (some acmeProgram) (some acmePartner) false acmeFormData
        ActionResult.success = some evs ∧
      evs.filter isExecute =
        [Event.execute
          { proposal := "I will blog", comments := "", termsAgreement := true,
            email := "a@b.com", name := "A", website := none,
            programId := "prog_1" }] :=
  ⟨by decide, by decide,
   submit_payload_merge acmeProgram acmePartner false acmeFormData
     ActionResult.success (by decide) (by decide)⟩

/-- A program with no terms URL at all. -/
def plainProgram : Program :=
  { id := "prog_3", slug := "gamma", name := "Gamma", domain := "gamma.co"
    logo := none, termsUrl := none }

/-- C3 (amended): when `program.termsUrl` is present and non-empty (truthy),
an unchecked terms checkbox blocks the attempt with an empty trace; when it
is absent or empty (falsy), the checkbox is not rendered and a submit that
passes the other checks proceeds regardless of the `termsAgreement` value,
making exactly one outbound call. -/
theorem terms_checkbox_gating (prog : Program) (p : Partner) (b : Bool)
    (data : FormData) (result : ActionResult) (ph : Phase)
    (hemail : p.email ≠ "") (hprop : data.proposal ≠ "") :
    (jsTruthy prog.termsUrl = true → data.termsAgreement = false →
      submitAttempt (some prog) (some p) b data result = some []) ∧
    (jsTruthy prog.termsUrl = false →
      (∃ r, renderContent (some prog) ph = some r ∧ r.showsTermsCheckbox = false) ∧
      ∃ evs, submitAttempt (some prog) (some p) b data result = some evs ∧
        evs.countP isExecute = 1) := by
  constructor
  · intro hterms hbox
    simp [submitAttempt, hasErrors, validateForm, hterms, hbox]
  · intro hterms
    refine ⟨⟨_, rfl, by simp [renderContent, hterms]⟩, ?_⟩
    have hval : hasErrors (validateForm prog data) = false := by
      simp [hasErrors, validateForm, hterms, hprop]
    cases result with
    | success =>
        refine ⟨_, submitAttempt_success_eq prog p b data hemail hval, ?_⟩
        cases b <;> simp [List.countP_cons, isExecute]
    | failure serverError =>
        refine ⟨_, submitAttempt_failure_eq prog p b data serverError hemail hval, ?_⟩
        simp [List.countP_cons, isExecute]

/-- Closed instance of `terms_checkbox_gating` at a program without a terms
URL and an unchecked checkbox. -/
theorem terms_checkbox_gating_witness :
    acmePartner.email ≠ "" ∧ noTermsFormData.proposal ≠ "" ∧
    ((jsTruthy plainProgram.termsUrl = true → noTermsFormData.termsAgreement = false →
      submitAttempt (some plainProgram) (some acmePartner) false noTermsFormData
        ActionResult.success = some []) ∧
    (jsTruthy plainProgram.termsUrl = false →
      (∃ r, renderContent (some plainProgram) Phase.idle = some r ∧
        r.showsTermsCheckbox = false) ∧
      ∃ evs, submitAttempt (some plainProgram) (some acmePartner) false
        noTermsFormData ActionResult.success = some evs ∧
        evs.countP isExecute = 1)) :=
  ⟨by decide, by decide,
   terms_checkbox_gating plainProgram acmePartner false noTermsFormData
     ActionResult.success Phase.idle (by decide) (by decide)⟩

/-- C3 counterexample: a `termsUrl` that is present but empty. The property
is present (`isSome`), the checkbox value is `false`, and yet the submission
is not blocked: the attempt makes an outbound call, because the conditional
render `{program.termsUrl && ...}` tests truthiness, not presence, so the
checkbox and its validators were never registered. -/
theorem terms_present_counterexample :
    emptyTermsProgram.termsUrl.isSome = true ∧
    noTermsFormData.termsAgreement = false ∧
    ((submitAttempt (some emptyTermsProgram) (some acmePartner) false
        noTermsFormData ActionResult.success).getD []).countP isExecute = 1 := by
  refine ⟨rfl, rfl, ?_⟩
  rfl

/-- Helper, C7: every reachable execution state ties its in-flight count to
the lifecycle phase. -/
theorem uiInv_reachable (s : UIExec) (h : UIReachable s) : uiInv s := by
  induction h with
  | refl => simp [uiInv, initialUI]
  | tail hr hstep ih =>
    simp only [uiInv] at ih ⊢
    rename_i t u
    cases hstep with
    | click hload =>
      have ht : t.phase ≠ Phase.submitting := by
        intro hp
        rw [hp] at hload
        simp [buttonLoading, isSubmitting] at hload
      have h0 : t.inFlight = 0 := by rw [ih, if_neg ht]
      simp [h0]
    | resolveOk hp =>
      have h1 : t.inFlight = 1 := by rw [ih, if_pos hp]
      simp [h1]
    | resolveErr hp =>
      have h1 : t.inFlight = 1 := by rw [ih, if_pos hp]
      simp [h1]

/-- C7: on every reachable execution state, at most one outbound submit call
is in flight; whenever one is in flight the submit button's `loading` prop
is `true`; the button is still loading after success; and the success state
admits no further transition at all, so no second submit can start. -/
theorem no_concurrent_submits (s : UIExec) (h : UIReachable s) :
    s.inFlight ≤ 1 ∧
    (0 < s.inFlight → buttonLoading s.phase = true) ∧
    buttonLoading Phase.success = true ∧
    (s.phase = Phase.success → ∀ t, ¬ SubmitStep s t) := by
  have hinv := uiInv_reachable s h
  simp only [uiInv] at hinv
  refine ⟨?_, ?_, rfl, ?_⟩
  · rw [hinv]; split <;> simp
  · intro hpos
    by_cases hp : s.phase = Phase.submitting
    · simp [buttonLoading, isSubmitting, hp]
    · rw [hinv, if_neg hp] at hpos
      exact absurd hpos (by simp)
  · intro hp t hstep
    cases hstep with
    | click hload =>
        rw [hp] at hload
        simp [buttonLoading, isSubmitSuccessful] at hload
    | resolveOk hsub => rw [hp] at hsub; simp at hsub
    | resolveErr hsub => rw [hp] at hsub; simp at hsub

/-- Closed instance of `no_concurrent_submits` at the mount state. -/
theorem no_concurrent_submits_witness :
    initialUI.inFlight ≤ 1 ∧
    (0 < initialUI.inFlight → buttonLoading initialUI.phase = true) ∧
    buttonLoading Phase.success = true ∧
    (initialUI.phase = Phase.success → ∀ t, ¬ SubmitStep initialUI t) :=
  no_concurrent_submits initialUI Relation.ReflTransGen.refl
